import Mathlib

/-!
Verification of the autoNotes webhook service (`src/app.py`) against its
natural-language specification.

The development is a shallow embedding of `app.py`:
* byte strings are `List Nat` (each entry a byte value);
* the Python standard-library primitives the code calls (`hashlib.sha256`,
  `hmac`, `json.loads`, file `open`/`write`) are embedded executably, with
  SHA-256 implemented in full;
* the external collaborators (Dropbox client, OpenAI client, pyvis) are
  environment parameters: a record of functions returning `Except PyErr`,
  mirroring "the call returned normally" / "the call raised";
* the process file system is explicit state (`FS`, an association list from
  path to content), threaded through the pipeline functions;
* a Python exception that the source code does not catch is a value of
  `PyErr` surfacing in the function's result (for a Flask handler this means
  an HTTP 500 response, not a handled status).
-/

set_option maxHeartbeats 2000000
set_option maxRecDepth 4000

/-- Python exception values, tagged by the exception class the source code
distinguishes (`dropbox.exceptions.ApiError` has its own `except` clause;
everything else is caught as `Exception` where a handler exists). The
carried string is `str(e)`. -/
inductive PyErr where
  | typeError (msg : String)
  | valueError (msg : String)
  | attributeError (msg : String)
  | apiError (msg : String)
  | fileNotFoundError (msg : String)
  | osError (msg : String)
  | other (msg : String)
deriving DecidableEq, Repr

/-- The string `str(e)` of a Python exception. -/
def pyStr : PyErr → String
  | .typeError m => m
  | .valueError m => m
  | .attributeError m => m
  | .apiError m => m
  | .fileNotFoundError m => m
  | .osError m => m
  | .other m => m

/-- Truncation to a 32-bit machine word, as performed implicitly by every
32-bit operation inside SHA-256. -/
def w32 (x : Nat) : Nat := x % 4294967296

/-- 32-bit right rotation (operand assumed `< 2^32`). -/
def rotr32 (n x : Nat) : Nat := w32 ((x >>> n) ||| (x <<< (32 - n)))

/-- SHA-256 message-schedule sigma-0. -/
def smallSigma0 (x : Nat) : Nat := (rotr32 7 x) ^^^ (rotr32 18 x) ^^^ (x >>> 3)

/-- SHA-256 message-schedule sigma-1. -/
def smallSigma1 (x : Nat) : Nat := (rotr32 17 x) ^^^ (rotr32 19 x) ^^^ (x >>> 10)

/-- SHA-256 compression Sigma-0. -/
def bigSigma0 (x : Nat) : Nat := (rotr32 2 x) ^^^ (rotr32 13 x) ^^^ (rotr32 22 x)

/-- SHA-256 compression Sigma-1. -/
def bigSigma1 (x : Nat) : Nat := (rotr32 6 x) ^^^ (rotr32 11 x) ^^^ (rotr32 25 x)

/-- SHA-256 choice function. -/
def chF (e f g : Nat) : Nat := (e &&& f) ^^^ ((e ^^^ 4294967295) &&& g)

/-- SHA-256 majority function. -/
def majF (a b c : Nat) : Nat := (a &&& b) ^^^ (a &&& c) ^^^ (b &&& c)

/-- The eight 32-bit working variables of SHA-256. -/
structure Hash8 where
  a : Nat
  b : Nat
  c : Nat
  d : Nat
  e : Nat
  f : Nat
  g : Nat
  h : Nat
deriving DecidableEq, Repr

/-- The SHA-256 round constants. -/
def sha256K : List Nat :=
  [1116352408, 1899447441, 3049323471, 3921009573, 961987163, 1508970993,
   2453635748, 2870763221, 3624381080, 310598401, 607225278, 1426881987,
   1925078388, 2162078206, 2614888103, 3248222580, 3835390401, 4022224774,
   264347078, 604807628, 770255983, 1249150122, 1555081692, 1996064986,
   2554220882, 2821834349, 2952996808, 3210313671, 3336571891, 3584528711,
   113926993, 338241895, 666307205, 773529912, 1294757372, 1396182291,
   1695183700, 1986661051, 2177026350, 2456956037, 2730485921, 2820302411,
   3259730800, 3345764771, 3516065817, 3600352804, 4094571909, 275423344,
   430227734, 506948616, 659060556, 883997877, 958139571, 1322822218,
   1537002063, 1747873779, 1955562222, 2024104815, 2227730452, 2361852424,
   2428436474, 2756734187, 3204031479, 3329325298]

/-- The SHA-256 initial hash value. -/
def sha256H0 : Hash8 :=
  ⟨1779033703, 3144134277, 1013904242, 2773480762,
   1359893119, 2600822924, 528734635, 1541459225⟩

/-- Big-endian decoding of a byte list into 32-bit words. -/
def bytesToWords : List Nat → List Nat
  | b0 :: b1 :: b2 :: b3 :: rest =>
      (((b0 * 256 + b1) * 256 + b2) * 256 + b3) :: bytesToWords rest
  | _ => []

/-- Big-endian encoding of 32-bit words into bytes. -/
def wordsToBytes : List Nat → List Nat
  | [] => []
  | w :: rest =>
      (w / 16777216 % 256) :: (w / 65536 % 256) :: (w / 256 % 256) :: (w % 256) :: wordsToBytes rest

/-- Extension loop of the SHA-256 message schedule; `rws` holds the words
produced so far, most recent first. -/
def extendLoop : Nat → List Nat → List Nat
  | 0, rws => rws
  | n + 1, rws =>
      let nw := w32 (smallSigma1 (rws.getD 1 0) + rws.getD 6 0 + smallSigma0 (rws.getD 14 0) + rws.getD 15 0)
      extendLoop n (nw :: rws)

/-- Extend the 16 words of a block to the 64 words of the message schedule. -/
def extendWords (w16 : List Nat) : List Nat := (extendLoop 48 w16.reverse).reverse

/-- One SHA-256 round. -/
def sha256Round (st : Hash8) (k : Nat) (w : Nat) : Hash8 :=
  let t1 := w32 (st.h + bigSigma1 st.e + chF st.e st.f st.g + k + w)
  let t2 := w32 (bigSigma0 st.a + majF st.a st.b st.c)
  ⟨w32 (t1 + t2), st.a, st.b, st.c, w32 (st.d + t1), st.e, st.f, st.g⟩

/-- Fold the 64 rounds over the paired constants and schedule words. -/
def sha256Rounds : List (Nat × Nat) → Hash8 → Hash8
  | [], st => st
  | (k, w) :: rest, st => sha256Rounds rest (sha256Round st k w)

/-- SHA-256 compression of one 64-byte block. -/
def sha256Block (st : Hash8) (block : List Nat) : Hash8 :=
  let ws := extendWords (bytesToWords block)
  let fin := sha256Rounds (sha256K.zip ws) st
  ⟨w32 (st.a + fin.a), w32 (st.b + fin.b), w32 (st.c + fin.c), w32 (st.d + fin.d),
   w32 (st.e + fin.e), w32 (st.f + fin.f), w32 (st.g + fin.g), w32 (st.h + fin.h)⟩

/-- Fold the compression over all blocks. -/
def sha256Blocks : List (List Nat) → Hash8 → Hash8
  | [], st => st
  | b :: bs, st => sha256Blocks bs (sha256Block st b)

/-- 64-bit big-endian encoding of a length field. -/
def be64 (n : Nat) : List Nat :=
  [n / 72057594037927936 % 256, n / 281474976710656 % 256, n / 1099511627776 % 256,
   n / 4294967296 % 256, n / 16777216 % 256, n / 65536 % 256, n / 256 % 256, n % 256]

/-- SHA-256 padding: append `0x80`, zeros to 56 mod 64, then the bit length. -/
def sha256Pad (msg : List Nat) : List Nat :=
  let len := msg.length
  let zeros := (120 - (len + 1) % 64) % 64
  msg ++ 0x80 :: (List.replicate zeros 0 ++ be64 (8 * len))

/-- Split a byte list into 64-byte chunks. The fuel argument (any value at
least the list length) keeps the recursion structural. -/
def chunks64 : Nat → List Nat → List (List Nat)
  | _, [] => []
  | 0, _ => []
  | fuel + 1, l => l.take 64 :: chunks64 fuel (l.drop 64)

/-- SHA-256 of a byte string, as computed by `hashlib.sha256(...).digest()`. -/
def sha256Bytes (msg : List Nat) : List Nat :=
  let padded := sha256Pad msg
  let fin := sha256Blocks (chunks64 padded.length padded) sha256H0
  wordsToBytes [fin.a, fin.b, fin.c, fin.d, fin.e, fin.f, fin.g, fin.h]

/-- Lower-case hexadecimal digit characters. -/
def hexDigitChar (n : Nat) : Char :=
  match n with
  | 0 => '0' | 1 => '1' | 2 => '2' | 3 => '3' | 4 => '4' | 5 => '5' | 6 => '6' | 7 => '7'
  | 8 => '8' | 9 => '9' | 10 => 'a' | 11 => 'b' | 12 => 'c' | 13 => 'd' | 14 => 'e' | _ => 'f'

/-- Lower-case hexadecimal rendering of a byte string, as produced by
`.hexdigest()`. -/
def toHexString (bytes : List Nat) : String :=
  String.mk (bytes.foldr (fun b acc => hexDigitChar (b / 16 % 16) :: hexDigitChar (b % 16) :: acc) [])

/-- `hmac.new(key, msg, sha256).digest()` (RFC 2104, block size 64). -/
def hmacSha256 (key msg : List Nat) : List Nat :=
  let k0 := if key.length > 64 then sha256Bytes key else key
  let k := k0 ++ List.replicate (64 - k0.length) 0
  let ipad := k.map (fun b => b ^^^ 54)
  let opad := k.map (fun b => b ^^^ 92)
  sha256Bytes (opad ++ sha256Bytes (ipad ++ msg))

/-- `hmac.new(key, msg, sha256).hexdigest()`: the value the webhook compares
the `X-Dropbox-Signature` header against (`app.py` line 66). -/
def hmacSha256Hex (key msg : List Nat) : String := toHexString (hmacSha256 key msg)

/-- ASCII byte encoding of an ASCII string (`str.encode()`); all concrete
strings fed to it in this file are ASCII. -/
def strBytes (s : String) : List Nat := s.data.map Char.toNat

/-- Python's ASCII test on a `str` (all code points below 128). -/
def pyAscii (s : String) : Bool := s.data.all (fun c => c.toNat < 128)

/-- `hmac.compare_digest(a, b)` on two `str` arguments: a constant-time
equality check; both arguments must be ASCII, otherwise it raises
`TypeError`. (The constant-time aspect is a timing property outside this
model; the returned value is plain equality.) -/
def compare_digest (a b : String) : Except PyErr Bool :=
  if pyAscii a && pyAscii b then .ok (a == b) else .error (.typeError "comparing strings with non-ASCII characters is not supported")

/-- The `TypeError` message raised by `hmac.compare_digest(None, str)`. -/
def noneCmpMsg : String := "unsupported operand types: NoneType and str"

/-- The signature check of `dropbox_webhook` (`app.py` lines 63-67): the
header value (absent headers give `None`, hence the `TypeError` branch)
is compared against the hex HMAC-SHA256 of the raw body under the configured
app secret. -/
def verify_signature (secret data : List Nat) (signature : Option String) : Except PyErr Bool :=
  match signature with
  | none => .error (.typeError noneCmpMsg)
  | some sig => compare_digest sig (hmacSha256Hex secret data)

theorem sha256_vector_empty :
    toHexString (sha256Bytes []) = "e3b0c44298fc1c149afbf4c8996fb92427ae41e4649b934ca495991b7852b855" := by
  rfl

theorem sha256_vector_abc :
    toHexString (sha256Bytes (strBytes "abc")) = "ba7816bf8f01cfea414140de5dae2223b00361a396177a9cb410ff61f20015ad" := by
  rfl

theorem hmac_vector_rfc :
    hmacSha256Hex (strBytes "key") (strBytes "The quick brown fox jumps over the lazy dog") =
      "f7bc83f430538424b13298e6aa6fb143ef4d59a14946175997479dbc2d1a3cd8" := by
  rfl

/-- Python values as produced by `json.loads` (the subset JSON can denote:
`None`, booleans, integers, strings, lists, dicts). Dict entries are kept
in textual order; duplicate keys resolve to the last occurrence, as in
Python. -/
inductive PyVal where
  | pyNone
  | pyBool (b : Bool)
  | pyInt (n : Int)
  | pyStr (s : String)
  | pyList (xs : List PyVal)
  | pyDict (kvs : List (String × PyVal))

/-- Skip JSON whitespace bytes. -/
def skipWs : List Nat → List Nat
  | [] => []
  | c :: cs => if c = 32 || c = 9 || c = 10 || c = 13 then skipWs cs else c :: cs

/-- Parse a JSON string body (after the opening quote) up to the closing
quote. Escapes and non-printable bytes are not needed by any payload in
this development and are rejected as a parse failure. -/
def pstr : List Nat → Except PyErr (String × List Nat)
  | [] => .error (.valueError "Unterminated string")
  | c :: cs =>
      if c = 34 then .ok ("", cs)
      else if c = 92 || c < 32 || c > 126 then .error (.valueError "Invalid string byte")
      else
        match pstr cs with
        | .error e => .error e
        | .ok (s, rest) => .ok (String.mk (Char.ofNat c :: s.data), rest)

/-- Collect decimal digit bytes. -/
def takeDigits : List Nat → (List Nat × List Nat)
  | [] => ([], [])
  | c :: cs =>
      if 48 ≤ c ∧ c ≤ 57 then
        let r := takeDigits cs
        (c :: r.1, r.2)
      else ([], c :: cs)

/-- Numeric value of decimal digit bytes. -/
def digitsVal (ds : List Nat) : Nat := ds.foldl (fun acc d => acc * 10 + (d - 48)) 0

/-- Parser mode: a value, the continuation of an array, or the continuation
of an object. -/
inductive PMode where
  | val
  | arrItems (acc : List PyVal)
  | objItems (acc : List (String × PyVal))

/-- Recursive-descent JSON parser (structural on the fuel argument) standing
for the `json` module's decoder, restricted to the grammar the service's
payloads use (no escapes, integer numbers). Returns the parsed value and
the unconsumed rest. -/
def pjson : Nat → PMode → List Nat → Except PyErr (PyVal × List Nat)
  | 0, _, _ => .error (.valueError "Expecting value")
  | fuel + 1, .val, input =>
      match skipWs input with
      | [] => .error (.valueError "Expecting value")
      | c :: cs =>
        if c = 110 then
          match cs with
          | 117 :: 108 :: 108 :: rest => .ok (.pyNone, rest)
          | _ => .error (.valueError "Expecting value")
        else if c = 116 then
          match cs with
          | 114 :: 117 :: 101 :: rest => .ok (.pyBool true, rest)
          | _ => .error (.valueError "Expecting value")
        else if c = 102 then
          match cs with
          | 97 :: 108 :: 115 :: 101 :: rest => .ok (.pyBool false, rest)
          | _ => .error (.valueError "Expecting value")
        else if c = 34 then
          match pstr cs with
          | .error e => .error e
          | .ok (s, rest) => .ok (.pyStr s, rest)
        else if c = 45 then
          match takeDigits cs with
          | ([], _) => .error (.valueError "Expecting value")
          | (ds, rest) => .ok (.pyInt (-(digitsVal ds : Int)), rest)
        else if 48 ≤ c ∧ c ≤ 57 then
          match takeDigits (c :: cs) with
          | (ds, rest) => .ok (.pyInt (digitsVal ds : Int), rest)
        else if c = 91 then
          match skipWs cs with
          | 93 :: rest => .ok (.pyList [], rest)
          | rest =>
            match pjson fuel .val rest with
            | .error e => .error e
            | .ok (v, rest2) => pjson fuel (.arrItems [v]) rest2
        else if c = 123 then
          match skipWs cs with
          | 125 :: rest => .ok (.pyDict [], rest)
          | 34 :: rest =>
            (match pstr rest with
             | .error e => .error e
             | .ok (k, rest2) =>
               match skipWs rest2 with
               | 58 :: rest3 =>
                 (match pjson fuel .val rest3 with
                  | .error e => .error e
                  | .ok (v, rest4) => pjson fuel (.objItems [(k, v)]) rest4)
               | _ => .error (.valueError "Expecting colon delimiter"))
          | _ => .error (.valueError "Expecting property name")
        else .error (.valueError "Expecting value")
  | fuel + 1, .arrItems acc, input =>
      match skipWs input with
      | 93 :: rest => .ok (.pyList acc.reverse, rest)
      | 44 :: rest =>
        (match pjson fuel .val rest with
         | .error e => .error e
         | .ok (v, rest2) => pjson fuel (.arrItems (v :: acc)) rest2)
      | _ => .error (.valueError "Expecting comma delimiter")
  | fuel + 1, .objItems acc, input =>
      match skipWs input with
      | 125 :: rest => .ok (.pyDict acc.reverse, rest)
      | 44 :: rest =>
        (match skipWs rest with
         | 34 :: rest2 =>
           (match pstr rest2 with
            | .error e => .error e
            | .ok (k, rest3) =>
              match skipWs rest3 with
              | 58 :: rest4 =>
                (match pjson fuel .val rest4 with
                 | .error e => .error e
                 | .ok (v, rest5) => pjson fuel (.objItems ((k, v) :: acc)) rest5)
              | _ => .error (.valueError "Expecting colon delimiter"))
         | _ => .error (.valueError "Expecting property name"))
      | _ => .error (.valueError "Expecting comma delimiter")

/-- `json.loads` on the raw request body (`app.py` line 71): parse one JSON
value and require only whitespace after it; any failure is the
`ValueError` (`json.JSONDecodeError`) that the handler does not catch. -/
def json_loads (data : List Nat) : Except PyErr PyVal :=
  match pjson (data.length + 2) .val data with
  | .error e => .error e
  | .ok (v, rest) =>
      match skipWs rest with
      | [] => .ok v
      | _ => .error (.valueError "Extra data")

/-- Last-occurrence lookup in a dict, matching Python dict construction from
duplicate JSON keys. -/
def pyDictLookupLast (kvs : List (String × PyVal)) (k : String) : Option PyVal :=
  kvs.foldl (fun acc p => if p.1 = k then some p.2 else acc) Option.none

/-- Python's `value.get(key, default)`: defined on dicts; any other value
has no `get` attribute and raises `AttributeError` (`app.py` line 72 calls
it on the parsed payload and on the `list_folder` entry). -/
def pyDictGet (v : PyVal) (k : String) (dflt : PyVal) : Except PyErr PyVal :=
  match v with
  | .pyDict kvs => .ok ((pyDictLookupLast kvs k).getD dflt)
  | _ => .error (.attributeError "object has no attribute get")

/-- Python's `for x in v` iteration domain: lists yield their elements,
strings their characters, dicts their keys; other values raise
`TypeError` (`app.py` line 76 iterates the extracted accounts value). -/
def pyIter : PyVal → Except PyErr (List PyVal)
  | .pyList xs => .ok xs
  | .pyStr s => .ok (s.data.map (fun c => .pyStr (String.mk [c])))
  | .pyDict kvs => .ok (kvs.map (fun p => .pyStr p.1))
  | _ => .error (.typeError "object is not iterable")

/-- An inbound notification POST as the handler sees it: the
`X-Dropbox-Signature` header (absent headers are `None`) and the raw body
bytes `request.data`. -/
structure WebhookRequest where
  signature : Option String
  data : List Nat

/-- Result of the `dropbox_webhook` handler: `forbidden` is `abort(403)`;
`ok spawned` is the empty-body 200 return after starting one
`process_dropbox_account` thread per extracted account; `serverError` is an
exception the handler does not catch, which Flask turns into an HTTP 500
response. -/
inductive WebhookResponse where
  | forbidden
  | ok (spawned : List PyVal)
  | serverError (e : PyErr)

/-- The notification receiver (`app.py` lines 59-80): verify the signature
(absent header: `compare_digest(None, ...)` raises `TypeError`); on
mismatch `abort(403)`; then `json.loads` the body (uncaught `ValueError` on
malformed bodies), extract `list_folder.accounts` with defaulting `get`
calls, and spawn one pipeline thread per account before returning `''`. -/
def dropbox_webhook (secret : List Nat) (req : WebhookRequest) : WebhookResponse :=
  match verify_signature secret req.data req.signature with
  | .error e => .serverError e
  | .ok false => .forbidden
  | .ok true =>
      match json_loads req.data with
      | .error e => .serverError e
      | .ok data =>
        match pyDictGet data "list_folder" (.pyDict []) with
        | .error e => .serverError e
        | .ok lf =>
          match pyDictGet lf "accounts" (.pyList []) with
          | .error e => .serverError e
          | .ok accounts =>
            match pyIter accounts with
            | .error e => .serverError e
            | .ok accts => .ok accts

/-- The verification-handshake response (`app.py` lines 49-57): a response
object with the echoed challenge as body (Flask's `Response(None)` for an
absent `challenge` query parameter is an empty body), HTTP status 200, and
the two explicitly set headers. -/
structure PlainResponse where
  status : Nat
  body : String
  content_type : String
  x_content_type_options : String
deriving DecidableEq, Repr

/-- The GET `/webhook` handler `verify_dropbox` (`app.py` lines 49-57):
`request.args.get('challenge')` is `None` when the parameter is absent. -/
def verify_dropbox (challenge : Option String) : PlainResponse :=
  { status := 200
    body := match challenge with | none => "" | some c => c
    content_type := "text/plain"
    x_content_type_options := "nosniff" }

/-- The process file system: an association list from path to content,
newest write first. Paths are the literal strings the code builds; no
normalization happens at this level (lexical resolution is modeled
separately for the traversal claim). -/
abbrev FS := List (String × String)

/-- Overwrite (or create) the file at `p` with content `c`. -/
def fsWrite (fs : FS) (p c : String) : FS := (p, c) :: fs

/-- Read the file at `p`, `none` when it does not exist. -/
def fsRead (fs : FS) (p : String) : Option String :=
  (fs.find? (fun entry => entry.1 == p)).map (fun entry => entry.2)

/-- State threaded through one pipeline run: the file system, the emitted
log (most recent first; `logger.debug` lines are filtered out by the INFO
root level configured at the top of `app.py` and are not modeled), and the
list of paths opened for writing (most recent first), which records which
files a run touches. -/
structure RunState where
  fs : FS
  log : List String
  writes : List String
deriving DecidableEq, Repr

/-- Append a log line. -/
def stLog (st : RunState) (msg : String) : RunState := { st with log := msg :: st.log }

/-- Write a file and record the write. -/
def stWrite (st : RunState) (p c : String) : RunState :=
  { st with fs := fsWrite st.fs p c, writes := p :: st.writes }

/-- A file entry returned by the Dropbox listing, with the fields the code
uses: `.name`, `.path_display`, `.server_modified` (modeled as a totally
ordered timestamp). -/
structure DropboxEntry where
  name : String
  path_display : String
  server_modified : Nat
deriving DecidableEq, Repr

/-- Python's `max(entries, key=server_modified)`: the first entry attaining
the maximal key. `e` is the running maximum (initially the head). -/
def maxByModified (e : DropboxEntry) : List DropboxEntry → DropboxEntry
  | [] => e
  | x :: xs => maxByModified (if x.server_modified > e.server_modified then x else e) xs

/-- A pyvis node as built by `generate_mind_map`: an id and a label. -/
structure PNode where
  id : String
  label : String

/-- A pyvis directed edge. -/
structure PEdge where
  src : String
  dst : String

/-- The external collaborators consumed by the pipeline, as injectable
functions; `.error e` means the call raised the Python exception `e`.
`listFolder` and `download` close over the single global
`DROPBOX_ACCESS_TOKEN` client of `download_latest_audio_file`;
`transcribe` is the Whisper call on the audio bytes; `chatComplete` is the
GPT call on (system instruction, user content); `render` is pyvis building
the self-contained document from the node/edge set; `openArtifact` and
`writeArtifact` are the outcomes of `open(path, "w")` and `f.write(html)`
in the publish step; `server_name` is `app.config.get('SERVER_NAME')`
rendered into the logged URL. -/
structure Env where
  listFolder : String → Except PyErr (List DropboxEntry)
  download : String → String → Except PyErr String
  transcribe : String → Except PyErr String
  chatComplete : String → String → Except PyErr String
  render : List PNode → List PEdge → Except PyErr String
  openArtifact : String → Except PyErr Unit
  writeArtifact : String → String → Except PyErr Unit
  server_name : String

/-- The log line of the two `except` clauses inside
`download_latest_audio_file` (`app.py` lines 149-154): `ApiError` has its
own message, any other exception the generic one. -/
def fetchErrorLogLine (e : PyErr) : String :=
  match e with
  | .apiError m => "Dropbox API error: " ++ m
  | _ => "Error downloading file: " ++ pyStr e

/-- `download_latest_audio_file` (`app.py` lines 123-154). The function
receives `account_id` but never uses it: it lists the App Folder root
(`folder_path = ""`) of the single global client, picks the entry with the
latest `server_modified`, and downloads it to
`downloads/{name}`. Every exception is caught inside and converted to a
`None` result, the same value an empty listing produces. -/
def download_latest_audio_file (env : Env) (st : RunState) (account_id : String) :
    RunState × Option String :=
  match env.listFolder "" with
  | .error e => (stLog st (fetchErrorLogLine e), none)
  | .ok entries =>
    match entries with
    | [] => (stLog st "No files found in App Folder", none)
    | e0 :: es =>
      let latest := maxByModified e0 es
      let local_path := "downloads/" ++ latest.name
      match env.download local_path latest.path_display with
      | .error e => (stLog st (fetchErrorLogLine e), none)
      | .ok content => (stWrite st local_path content, some local_path)

/-- `transcribe_audio` (`app.py` lines 158-165): open the downloaded file
(absent file: `FileNotFoundError`) and pass its content to the Whisper
collaborator. -/
def transcribe_audio (env : Env) (st : RunState) (audio_file_path : String) :
    Except PyErr String :=
  match fsRead st.fs audio_file_path with
  | none => .error (.fileNotFoundError ("No such file or directory: " ++ audio_file_path))
  | some content => env.transcribe content

/-- `gpt4_process` (`app.py` lines 167-176): the fixed system instruction
with the transcript as user content. -/
def gpt4_process (env : Env) (transcript : String) : Except PyErr String :=
  env.chatComplete "Convert this transcript into mind map nodes:" transcript

/-- The fixed scratch path `net.save_graph("templates/mindmap.html")`
(`app.py` line 184) — the same for every account. -/
def mindmap_scratch_path : String := "templates/mindmap.html"

/-- `generate_mind_map` (`app.py` lines 178-186): build the two-node,
one-edge network (root "Summary", child "Details" labeled with the first
40 characters of the summary), let pyvis render and save it to the fixed
scratch path, then read that file back and return its content. -/
def generate_mind_map (env : Env) (st : RunState) (summary_text : String) :
    Except PyErr (RunState × String) :=
  let nodes := [⟨"Summary", "Summary"⟩, ⟨"Details", summary_text.take 40⟩]
  let edges : List PEdge := [⟨"Summary", "Details"⟩]
  match env.render nodes edges with
  | .error e => .error e
  | .ok doc =>
    let st2 := stWrite st mindmap_scratch_path doc
    match fsRead st2.fs mindmap_scratch_path with
    | none => .error (.fileNotFoundError mindmap_scratch_path)
    | some s => .ok (st2, s)

/-- The artifact address `f"static/mindmap_{account_id}.html"` built by the
publish step (`app.py` line 111) and by the retrieval route (line 198). -/
def artifact_path (account_id : String) : String :=
  "static/mindmap_" ++ account_id ++ ".html"

/-- Terminal outcome of one pipeline run: the spec's
success / no-content / failed trichotomy as it is observable from
`process_dropbox_account` (a normal return after the final logs, the early
`return` on a missing audio path, or the `except Exception` handler). -/
inductive RunOutcome where
  | success (mindmap_path : String)
  | noContent
  | failed (e : PyErr)
deriving DecidableEq, Repr

/-- The log line of the `except Exception` handler of
`process_dropbox_account` (`app.py` line 121). -/
def runFailLogLine (account_id : String) (e : PyErr) : String :=
  "Error processing account " ++ account_id ++ ": " ++ pyStr e

/-- `process_dropbox_account` (`app.py` lines 82-121): the per-account run.
The whole body is inside `try`/`except Exception`, so no exception escapes;
a falsy download result takes the early `return` (no-content). The publish
step is `open(path, "w")` — which truncates the existing file as soon as it
succeeds — followed by `f.write(html)`; each of the two operations can
raise. -/
def process_dropbox_account (env : Env) (st : RunState) (account_id : String) :
    RunState × RunOutcome :=
  let st0 := stLog st ("Processing started for account: " ++ account_id)
  match download_latest_audio_file env st0 account_id with
  | (st1, none) =>
      (stLog st1 ("No audio files found for account: " ++ account_id), .noContent)
  | (st1, some audio_file_path) =>
      let st2 := stLog st1 ("Successfully downloaded audio file: " ++ audio_file_path)
      match transcribe_audio env st2 audio_file_path with
      | .error e => (stLog st2 (runFailLogLine account_id e), .failed e)
      | .ok transcript =>
        let st3 := stLog st2 "Audio transcription completed"
        match gpt4_process env transcript with
        | .error e => (stLog st3 (runFailLogLine account_id e), .failed e)
        | .ok summary =>
          let st4 := stLog st3 "GPT-4 processing completed"
          match generate_mind_map env st4 summary with
          | .error e => (stLog st4 (runFailLogLine account_id e), .failed e)
          | .ok (st5, mind_map_html) =>
            let mindmap_path := artifact_path account_id
            match env.openArtifact mindmap_path with
            | .error e => (stLog st5 (runFailLogLine account_id e), .failed e)
            | .ok _ =>
              let st6 := stWrite st5 mindmap_path ""
              match env.writeArtifact mindmap_path mind_map_html with
              | .error e => (stLog st6 (runFailLogLine account_id e), .failed e)
              | .ok _ =>
                let st7 := stWrite st6 mindmap_path mind_map_html
                let st8 := stLog st7 ("Mind map successfully created for account: " ++ account_id)
                let st9 := stLog st8 ("Mind map URL: https://" ++ env.server_name ++ "/mindmap/" ++ account_id ++ " (CLICKABLE)")
                (st9, .success mindmap_path)

/-- The Artifact Store `put`: the net effect on the file system of the
publish step (`app.py` lines 110-113) when both the open and the write
succeed — the document replaces whatever was at the account's artifact
path. -/
def put_artifact (fs : FS) (account_id document : String) : FS :=
  fsWrite fs (artifact_path account_id) document

/-- Response of the retrieval route: `send_file` of the artifact, or the
404 with its plain-text message. -/
inductive MindmapResponse where
  | file (content : String)
  | notFound (msg : String)
deriving DecidableEq, Repr

/-- `view_mindmap` (`app.py` lines 195-202): serve
`static/mindmap_{account_id}.html` if it exists, else a 404 message. -/
def view_mindmap (fs : FS) (account_id : String) : MindmapResponse :=
  match fsRead fs (artifact_path account_id) with
  | none => .notFound ("No mind map found for account " ++ account_id)
  | some content => .file content

/-- Split a path at `/` separators. -/
def splitOnSlash : List Char → List (List Char)
  | [] => [[]]
  | c :: cs =>
      match splitOnSlash cs with
      | [] => [[]]
      | seg :: rest => if c = '/' then [] :: seg :: rest else (c :: seg) :: rest

/-- Lexical resolution of path components: empty components and `.` vanish,
`..` pops the previous component (at the top it stays at the top, which is
already outside any designated subdirectory). `stack` holds resolved
components in reverse. -/
def resolveSegs : List (List Char) → List (List Char) → List (List Char)
  | stack, [] => stack.reverse
  | stack, seg :: rest =>
      if seg = [] then resolveSegs stack rest
      else if seg = ['.'] then resolveSegs stack rest
      else if seg = ['.', '.'] then resolveSegs stack.tail rest
      else resolveSegs (seg :: stack) rest

/-- The components a relative path denotes after lexical `.`/`..`
resolution: the location the operating system resolves the address to,
relative to the working directory. -/
def resolvePath (p : String) : List String :=
  (resolveSegs [] (splitOnSlash p.data)).map (fun cs => String.mk cs)

theorem hexDigitChar_lt (n : Nat) : (hexDigitChar n).toNat < 128 := by
  unfold hexDigitChar
  split <;> decide

theorem toHex_all_ascii (bs : List Nat) :
    (bs.foldr (fun b acc => hexDigitChar (b / 16 % 16) :: hexDigitChar (b % 16) :: acc) []).all
      (fun c => c.toNat < 128) = true := by
  induction bs with
  | nil => rfl
  | cons b rest ih =>
    simp only [List.foldr_cons, List.all_cons, Bool.and_eq_true, decide_eq_true_eq]
    exact ⟨hexDigitChar_lt _, hexDigitChar_lt _, ih⟩

theorem pyAscii_toHex (bs : List Nat) : pyAscii (toHexString bs) = true :=
  toHex_all_ascii bs

theorem pyAscii_hmacHex (k m : List Nat) : pyAscii (hmacSha256Hex k m) = true :=
  toHex_all_ascii (hmacSha256 k m)

theorem verify_accepts_iff (secret data : List Nat) (sig : String) :
    verify_signature secret data (some sig) = .ok true ↔ sig = hmacSha256Hex secret data := by
  constructor
  · intro h
    simp only [verify_signature, compare_digest] at h
    by_cases hA : (pyAscii sig && pyAscii (hmacSha256Hex secret data)) = true
    · rw [if_pos hA] at h
      exact eq_of_beq (Except.ok.inj h)
    · rw [if_neg hA] at h
      cases h
  · intro h
    subst h
    simp only [verify_signature, compare_digest]
    rw [if_pos (by rw [pyAscii_hmacHex]; rfl)]
    rw [beq_self_eq_true]

theorem verify_eq_digest_accepts (secret data : List Nat) :
    verify_signature secret data (some (hmacSha256Hex secret data)) = .ok true :=
  (verify_accepts_iff secret data _).mpr rfl

theorem fsRead_write_self (fs : FS) (p c : String) : fsRead (fsWrite fs p c) p = some c := by
  unfold fsRead fsWrite
  rw [List.find?_cons_of_pos _ (by simp)]
  rfl

theorem fsRead_write_ne (fs : FS) (p q c : String) (h : p ≠ q) :
    fsRead (fsWrite fs p c) q = fsRead fs q := by
  unfold fsRead fsWrite
  rw [List.find?_cons_of_neg _ (by simp [h])]

theorem ne_of_first_char (s t : String) (c d : Char) (l m : List Char)
    (hs : s.data = c :: l) (ht : t.data = d :: m) (hcd : c ≠ d) : s ≠ t := by
  intro h
  rw [h, ht] at hs
  injection hs with h1 _
  exact hcd h1.symm

theorem downloads_ne_artifact (x a : String) : ("downloads/" ++ x) ≠ artifact_path a := by
  apply ne_of_first_char _ _ 'd' 's' ("ownloads/".data ++ x.data)
    (("tatic/mindmap_".data ++ a.data) ++ ".html".data)
  · rw [String.data_append]; rfl
  · unfold artifact_path; rw [String.data_append, String.data_append]; rfl
  · decide

theorem scratch_ne_artifact (a : String) : mindmap_scratch_path ≠ artifact_path a := by
  apply ne_of_first_char _ _ 't' 's' "emplates/mindmap.html".data
    (("tatic/mindmap_".data ++ a.data) ++ ".html".data)
  · rfl
  · unfold artifact_path; rw [String.data_append, String.data_append]; rfl
  · decide

theorem artifact_path_inj (x y : String) (h : artifact_path x = artifact_path y) : x = y := by
  have hd := congrArg String.data h
  unfold artifact_path at hd
  rw [String.data_append, String.data_append, String.data_append, String.data_append] at hd
  exact String.ext (List.append_cancel_left (List.append_cancel_right hd))

theorem download_cases (env : Env) (st : RunState) (a : String) :
    ((download_latest_audio_file env st a).1.fs = st.fs ∧
     (download_latest_audio_file env st a).1.writes = st.writes ∧
     (download_latest_audio_file env st a).2 = none) ∨
    (∃ n c, (download_latest_audio_file env st a).1.fs = fsWrite st.fs ("downloads/" ++ n) c ∧
            (download_latest_audio_file env st a).1.writes = ("downloads/" ++ n) :: st.writes ∧
            (download_latest_audio_file env st a).2 = some ("downloads/" ++ n)) := by
  cases hl : env.listFolder "" with
  | error e => left; simp [download_latest_audio_file, hl, stLog]
  | ok entries =>
    cases entries with
    | nil => left; simp [download_latest_audio_file, hl, stLog]
    | cons e0 es =>
      cases hd : env.download ("downloads/" ++ (maxByModified e0 es).name) (maxByModified e0 es).path_display with
      | error err => left; simp [download_latest_audio_file, hl, hd, stLog]
      | ok content =>
        right
        refine ⟨(maxByModified e0 es).name, content, ?_, ?_, ?_⟩ <;>
          simp [download_latest_audio_file, hl, hd, stWrite]

theorem generate_ok (env : Env) (st : RunState) (s : String) (st2 : RunState) (d : String)
    (h : generate_mind_map env st s = .ok (st2, d)) :
    st2.fs = fsWrite st.fs mindmap_scratch_path d ∧
    st2.log = st.log ∧
    st2.writes = mindmap_scratch_path :: st.writes := by
  simp only [generate_mind_map] at h
  cases hr : env.render [⟨"Summary", "Summary"⟩, ⟨"Details", s.take 40⟩] [⟨"Summary", "Details"⟩] with
  | error e => rw [hr] at h; cases h
  | ok doc =>
    rw [hr] at h
    simp only [stWrite, fsRead_write_self] at h
    have h1 := Prod.mk.injEq .. ▸ (Except.ok.inj h)
    obtain ⟨hst, hd⟩ := Prod.mk.inj (Except.ok.inj h)
    subst hd
    rw [← hst]
    exact ⟨rfl, rfl, rfl⟩

theorem fsRead_foldl_put_none (a : String) (puts : List (String × String)) :
    ∀ acc : FS, a ∉ puts.map Prod.fst →
      fsRead acc (artifact_path a) = Option.none →
      fsRead (puts.foldl (fun s p => put_artifact s p.1 p.2) acc) (artifact_path a) = Option.none := by
  induction puts with
  | nil => intro acc _ h2; simpa using h2
  | cons hd tl ih =>
    intro acc h1 h2
    simp only [List.map_cons, List.mem_cons, not_or] at h1
    simp only [List.foldl_cons]
    apply ih _ h1.2
    unfold put_artifact
    rw [fsRead_write_ne]
    · exact h2
    · intro hpa
      exact h1.1 (artifact_path_inj _ _ hpa).symm

theorem splitOnSlash_ne_nil (l : List Char) : splitOnSlash l ≠ [] := by
  induction l with
  | nil => simp [splitOnSlash]
  | cons c cs ih =>
    simp only [splitOnSlash]
    split
    · simp
    · split <;> simp

theorem splitOnSlash_no_slash (l : List Char) (h : '/' ∉ l) : splitOnSlash l = [l] := by
  induction l with
  | nil => rfl
  | cons c cs ih =>
    have hc : c ≠ '/' := by
      intro hh
      exact h (by simp [hh])
    have hcs : '/' ∉ cs := fun hm => h (List.mem_cons_of_mem _ hm)
    simp only [splitOnSlash, ih hcs]
    rw [if_neg hc]

theorem splitOnSlash_slash_append (l m : List Char) (h : '/' ∉ l) :
    splitOnSlash (l ++ '/' :: m) = l :: splitOnSlash m := by
  induction l with
  | nil =>
    simp only [List.nil_append, splitOnSlash]
    cases hm : splitOnSlash m with
    | nil => exact absurd hm (splitOnSlash_ne_nil m)
    | cons seg rest => simp
  | cons c cs ih =>
    have hc : c ≠ '/' := by
      intro hh
      exact h (by simp [hh])
    have hcs : '/' ∉ cs := fun hm => h (List.mem_cons_of_mem _ hm)
    simp only [List.cons_append, splitOnSlash, List.append_eq]
    rw [ih hcs]
    simp [hc]

theorem resolveSegs_nil (stack : List (List Char)) : resolveSegs stack [] = stack.reverse := by
  simp only [resolveSegs]

theorem resolveSegs_step (stack : List (List Char)) (seg : List Char) (rest : List (List Char))
    (h1 : seg ≠ []) (h2 : seg ≠ ['.']) (h3 : seg ≠ ['.', '.']) :
    resolveSegs stack (seg :: rest) = resolveSegs (seg :: stack) rest := by
  simp only [resolveSegs]
  rw [if_neg h1, if_neg h2, if_neg h3]

theorem resolve_artifact_no_slash (a : String) (h : '/' ∉ a.data) :
    resolvePath (artifact_path a) = ["static", "mindmap_" ++ a ++ ".html"] := by
  have hdata : (artifact_path a).data
      = "static".data ++ '/' :: ("mindmap_".data ++ a.data ++ ".html".data) := by
    unfold artifact_path
    rw [String.data_append, String.data_append]
    have hlit : ("static/mindmap_".data : List Char) = "static".data ++ '/' :: "mindmap_".data := by
      rfl
    rw [hlit]
    simp [List.append_assoc]
  have hns : '/' ∉ ("mindmap_".data ++ a.data ++ ".html".data) := by
    intro hm
    rcases List.mem_append.mp hm with hm1 | hm2
    · rcases List.mem_append.mp hm1 with hm3 | hm4
      · exact absurd hm3 (by decide)
      · exact h hm4
    · exact absurd hm2 (by decide)
  have hsplit : splitOnSlash (artifact_path a).data
      = "static".data :: ["mindmap_".data ++ a.data ++ ".html".data] := by
    rw [hdata, splitOnSlash_slash_append _ _ (by decide), splitOnSlash_no_slash _ hns]
  have hrest : ("mindmap_".data ++ a.data ++ ".html".data)
      = 'm' :: ("indmap_".data ++ a.data ++ ".html".data) := by rfl
  have d1 : ("mindmap_".data ++ a.data ++ ".html".data) ≠ [] := by
    rw [hrest]
    simp
  have d2 : ("mindmap_".data ++ a.data ++ ".html".data) ≠ ['.'] := by
    rw [hrest]
    intro hx
    injection hx with hx1 _
    exact absurd hx1 (by decide)
  have d3 : ("mindmap_".data ++ a.data ++ ".html".data) ≠ ['.', '.'] := by
    rw [hrest]
    intro hx
    injection hx with hx1 _
    exact absurd hx1 (by decide)
  unfold resolvePath
  rw [hsplit, resolveSegs_step _ _ _ (by decide) (by decide) (by decide),
      resolveSegs_step _ _ _ d1 d2 d3, resolveSegs_nil]
  show [String.mk ("static".data), String.mk ("mindmap_".data ++ a.data ++ ".html".data)]
      = ["static", "mindmap_" ++ a ++ ".html"]
  have hmk : String.mk ("mindmap_".data ++ a.data ++ ".html".data) = "mindmap_" ++ a ++ ".html" := by
    apply String.ext
    rw [String.data_append, String.data_append]
  rw [hmk]

theorem download_fs_artifact (env : Env) (st : RunState) (a : String) (st1 : RunState)
    (r : Option String) (heq : download_latest_audio_file env st a = (st1, r)) (b : String) :
    fsRead st1.fs (artifact_path b) = fsRead st.fs (artifact_path b) := by
  have hc := download_cases env st a
  rw [heq] at hc
  rcases hc with ⟨h1, _, _⟩ | ⟨n, c, h1, _, _⟩
  · rw [h1]
  · rw [h1, fsRead_write_ne _ _ _ _ (downloads_ne_artifact n b)]

theorem process_failed_spec (env : Env) (st : RunState) (a : String) (st' : RunState) (e : PyErr)
    (hp : process_dropbox_account env st a = (st', .failed e)) :
    runFailLogLine a e ∈ st'.log ∧
    (fsRead st'.fs (artifact_path a) = fsRead st.fs (artifact_path a) ∨
     fsRead st'.fs (artifact_path a) = some "") := by
  simp only [process_dropbox_account] at hp
  split at hp
  · simp at hp
  · rename_i st1 audio_file_path heqdl
    split at hp
    · rename_i e1 heqtr
      obtain ⟨hst, hout⟩ := Prod.mk.inj hp
      injection hout with he
      subst he
      subst hst
      refine ⟨List.mem_cons_self _ _, Or.inl ?_⟩
      exact download_fs_artifact env _ a st1 _ heqdl a
    · rename_i transcript heqtr
      split at hp
      · rename_i e1 heqgpt
        obtain ⟨hst, hout⟩ := Prod.mk.inj hp
        injection hout with he
        subst he
        subst hst
        refine ⟨List.mem_cons_self _ _, Or.inl ?_⟩
        exact download_fs_artifact env _ a st1 _ heqdl a
      · rename_i summary heqgpt
        split at hp
        · rename_i e1 heqgen
          obtain ⟨hst, hout⟩ := Prod.mk.inj hp
          injection hout with he
          subst he
          subst hst
          refine ⟨List.mem_cons_self _ _, Or.inl ?_⟩
          exact download_fs_artifact env _ a st1 _ heqdl a
        · rename_i st5 mind_map_html heqgen
          have hg := generate_ok _ _ _ _ _ heqgen
          split at hp
          · rename_i e1 heqop
            obtain ⟨hst, hout⟩ := Prod.mk.inj hp
            injection hout with he
            subst he
            subst hst
            refine ⟨List.mem_cons_self _ _, Or.inl ?_⟩
            show fsRead st5.fs (artifact_path a) = fsRead st.fs (artifact_path a)
            rw [hg.1, fsRead_write_ne _ _ _ _ (scratch_ne_artifact a)]
            exact download_fs_artifact env _ a st1 _ heqdl a
          · split at hp
            · rename_i e1 heqwr
              obtain ⟨hst, hout⟩ := Prod.mk.inj hp
              injection hout with he
              subst he
              subst hst
              refine ⟨List.mem_cons_self _ _, Or.inr ?_⟩
              show fsRead (fsWrite st5.fs (artifact_path a) "") (artifact_path a) = some ""
              exact fsRead_write_self _ _ _
            · simp at hp

theorem process_success_spec (env : Env) (st : RunState) (a : String) (st' : RunState) (p : String)
    (hp : process_dropbox_account env st a = (st', .success p)) :
    mindmap_scratch_path ∈ st'.writes := by
  simp only [process_dropbox_account] at hp
  split at hp
  · simp at hp
  · rename_i st1 audio_file_path heqdl
    split at hp
    · simp at hp
    · rename_i transcript heqtr
      split at hp
      · simp at hp
      · rename_i summary heqgpt
        split at hp
        · simp at hp
        · rename_i st5 mind_map_html heqgen
          have hg := generate_ok _ _ _ _ _ heqgen
          split at hp
          · simp at hp
          · split at hp
            · simp at hp
            · obtain ⟨hst, _⟩ := Prod.mk.inj hp
              subst hst
              show mindmap_scratch_path ∈
                artifact_path a :: artifact_path a :: st5.writes
              rw [hg.2.2]
              exact List.mem_cons_of_mem _ (List.mem_cons_of_mem _ (List.mem_cons_self _ _))

/-- A collaborator environment in which every external call succeeds: one
audio entry in the storage scope, fixed transcript/summary, a rendering
that embeds the node labels. -/
def env_ok : Env :=
  { listFolder := fun _ => .ok [⟨"a.mp3", "/a.mp3", 5⟩]
    download := fun _ _ => .ok "AUDIO"
    transcribe := fun _ => .ok "TRANSCRIPT"
    chatComplete := fun _ t => .ok ("SUMMARY:" ++ t)
    render := fun ns _ => .ok ("DOC:" ++ (ns.map (fun n => n.label)).foldl (fun x y => x ++ y) "")
    openArtifact := fun _ => .ok ()
    writeArtifact := fun _ _ => .ok ()
    server_name := "example.com" }

/-- Like `env_ok` but the publish-step `f.write` raises (for example the
disk filling up after the artifact file was already opened and truncated). -/
def env_pubfail : Env :=
  { env_ok with writeArtifact := fun _ _ => .error (.osError "No space left on device") }

/-- Like `env_ok` but the storage listing call raises an
`dropbox.exceptions.ApiError`. -/
def env_listfail : Env :=
  { env_ok with listFolder := fun _ => .error (.apiError "boom") }

/-- Like `env_ok` but the storage scope is empty. -/
def env_empty : Env :=
  { env_ok with listFolder := fun _ => .ok [] }

/-- The empty initial run state. -/
def st0 : RunState := ⟨[], [], []⟩

/-- A run state holding a previously published artifact for account
`acct1`. -/
def st_prior : RunState := ⟨[("static/mindmap_acct1.html", "OLD")], [], []⟩

/-- Claim C1: on a POST whose `X-Dropbox-Signature` header is absent, the
handler does not return false-and-403: `hmac.compare_digest(None, digest)`
raises `TypeError`, which escapes the handler (HTTP 500). The run performs
no further processing, but the claimed 403 access-denied response never
happens. -/
theorem webhook_missing_signature_raises (secret body : List Nat) :
    dropbox_webhook secret ⟨none, body⟩ = .serverError (.typeError noneCmpMsg) ∧
    dropbox_webhook secret ⟨none, body⟩ ≠ .forbidden := by
  constructor
  · rfl
  · intro h
    exact WebhookResponse.noConfusion h

/-- Claim C4: on a validly signed notification whose body is malformed, the
uncaught `json.loads` exception escapes the handler (HTTP 500); the
endpoint does not return the claimed successful empty-body 200 response. -/
theorem webhook_malformed_body_raises (secret body : List Nat) (e : PyErr)
    (hparse : json_loads body = .error e) :
    dropbox_webhook secret ⟨some (hmacSha256Hex secret body), body⟩ = .serverError e ∧
    ∀ spawned, dropbox_webhook secret ⟨some (hmacSha256Hex secret body), body⟩ ≠ .ok spawned := by
  have hv := verify_eq_digest_accepts secret body
  have h1 : dropbox_webhook secret ⟨some (hmacSha256Hex secret body), body⟩ = .serverError e := by
    simp only [dropbox_webhook, hv, hparse]
  refine ⟨h1, fun spawned h => ?_⟩
  rw [h1] at h
  exact WebhookResponse.noConfusion h

/-- Witness for C4 at a concrete input: the body `oops` is malformed, and
the correctly signed request ends in the escaped `ValueError`, not in a
200. -/
theorem webhook_malformed_body_witness :
    json_loads (strBytes "oops") = .error (.valueError "Expecting value") ∧
    dropbox_webhook (strBytes "k")
        ⟨some (hmacSha256Hex (strBytes "k") (strBytes "oops")), strBytes "oops"⟩ =
      .serverError (.valueError "Expecting value") :=
  ⟨rfl, (webhook_malformed_body_raises (strBytes "k") (strBytes "oops") _ rfl).1⟩

/-- Claim C6 (amended): the verifier accepts exactly when the claimed
signature equals the hex HMAC-SHA256 of the raw body under the secret; and
whenever it accepts, any change of body or secret that changes the HMAC
digest makes it no longer accept. -/
theorem verifier_accepts_iff_hmac (secret data : List Nat) (sig : String) :
    (verify_signature secret data (some sig) = .ok true ↔ sig = hmacSha256Hex secret data) ∧
    (∀ secret2 data2 : List Nat,
      verify_signature secret data (some sig) = .ok true →
      hmacSha256Hex secret2 data2 ≠ hmacSha256Hex secret data →
      verify_signature secret2 data2 (some sig) ≠ .ok true) := by
  refine ⟨verify_accepts_iff secret data sig, ?_⟩
  intro s2 d2 hacc hne hacc2
  exact hne (((verify_accepts_iff s2 d2 sig).mp hacc2).symm.trans
    ((verify_accepts_iff secret data sig).mp hacc))

/-- Witness for C6 at concrete inputs: the correct digest for secret `[0]`,
body `[0]` is accepted, and after flipping the low bit of the body byte the
same claimed signature is no longer accepted. -/
theorem verifier_accepts_iff_hmac_witness :
    verify_signature [0] [0] (some (hmacSha256Hex [0] [0])) = .ok true ∧
    verify_signature [0] [1] (some (hmacSha256Hex [0] [0])) ≠ .ok true :=
  ⟨(verifier_accepts_iff_hmac [0] [0] (hmacSha256Hex [0] [0])).1.mpr rfl,
   (verifier_accepts_iff_hmac [0] [0] (hmacSha256Hex [0] [0])).2 [0] [1]
     ((verifier_accepts_iff_hmac [0] [0] (hmacSha256Hex [0] [0])).1.mpr rfl)
     (by decide)⟩

/-- Counterexample to C6 as stated: with the claimed signature `""` the
verifier rejects body `[0]` and still rejects after flipping one bit of the
body (`[1]`) or of the secret (`[1]`): a single-bit flip does not flip the
result. -/
theorem verifier_bitflip_counterexample :
    verify_signature [0] [0] (some "") = .ok false ∧
    verify_signature [0] [1] (some "") = .ok false ∧
    verify_signature [1] [0] (some "") = .ok false :=
  ⟨rfl, rfl, rfl⟩

/-- Claim C2 (amended): the fetch step ignores the account identifier
entirely — the listing and download (and hence the whole fetch result,
state effects included) are identical for any two account identifiers, so
all runs fetch from the same single storage scope. -/
theorem download_ignores_account (env : Env) (st : RunState) (a b : String) :
    download_latest_audio_file env st a = download_latest_audio_file env st b := rfl

/-- Counterexample to C2 as stated: two distinct account identifiers
produce byte-for-byte identical fetches (same listing of the app-folder
root, same downloaded file), not fetches from distinct storage scopes. -/
theorem fetch_scope_counterexample :
    "acct1" ≠ "acct2" ∧
    download_latest_audio_file env_ok st0 "acct1" = download_latest_audio_file env_ok st0 "acct2" ∧
    (download_latest_audio_file env_ok st0 "acct1").2 = some "downloads/a.mp3" :=
  ⟨by decide, rfl, rfl⟩

/-- Claim C5 (amended): when the storage listing call raises, the exception
is caught inside the fetch helper and logged there, and the run then ends
with the same no-content outcome (and "No audio files found" log line) as
an empty scope — not with outcome failed. -/
theorem fetch_failure_no_content (env : Env) (st : RunState) (a : String) (e : PyErr)
    (h : env.listFolder "" = .error e) :
    (process_dropbox_account env st a).2 = .noContent ∧
    ("No audio files found for account: " ++ a) ∈ (process_dropbox_account env st a).1.log ∧
    fetchErrorLogLine e ∈ (process_dropbox_account env st a).1.log := by
  refine ⟨?_, ?_, ?_⟩ <;>
    simp only [process_dropbox_account, download_latest_audio_file, h] <;>
    simp [stLog]

/-- Witness for C5 at a concrete input: a raising listing call ends the run
as no-content with both log lines present. -/
theorem fetch_failure_no_content_witness :
    (process_dropbox_account env_listfail st0 "acct4").2 = .noContent ∧
    ("No audio files found for account: " ++ "acct4") ∈
      (process_dropbox_account env_listfail st0 "acct4").1.log ∧
    fetchErrorLogLine (.apiError "boom") ∈ (process_dropbox_account env_listfail st0 "acct4").1.log :=
  fetch_failure_no_content env_listfail st0 "acct4" (.apiError "boom") rfl

/-- Counterexample to C5 as stated: a raising storage call gives outcome
no-content — the very same outcome as an empty storage scope — rather than
the claimed distinguishable failed outcome. -/
theorem fetch_failure_counterexample :
    (process_dropbox_account env_listfail st0 "acct1").2 = .noContent ∧
    (process_dropbox_account env_empty st0 "acct1").2 = .noContent ∧
    (process_dropbox_account env_listfail st0 "acct1").2 =
      (process_dropbox_account env_empty st0 "acct1").2 :=
  ⟨rfl, rfl, rfl⟩

/-- Claim C3 (amended): whenever a run's outcome is failed, the exception
was caught inside the run and logged with the account identifier, and the
artifact for that account is either unchanged from before the run or —
only when the publish-step write failed after the artifact file had been
opened for writing (truncation) — left empty. -/
theorem run_failure_containment (env : Env) (st : RunState) (a : String) (e : PyErr)
    (h : (process_dropbox_account env st a).2 = .failed e) :
    runFailLogLine a e ∈ (process_dropbox_account env st a).1.log ∧
    (fsRead (process_dropbox_account env st a).1.fs (artifact_path a) =
        fsRead st.fs (artifact_path a) ∨
     fsRead (process_dropbox_account env st a).1.fs (artifact_path a) = some "") := by
  have hp : process_dropbox_account env st a =
      ((process_dropbox_account env st a).1, RunOutcome.failed e) := by
    rw [← h]
  exact process_failed_spec env st a _ e hp

/-- Witness for C3 at a concrete input: a raising publish write ends the
run as failed, with the failure logged under the account identifier and the
(previously absent) artifact left truncated empty. -/
theorem run_failure_containment_witness :
    runFailLogLine "acct3" (.osError "No space left on device") ∈
      (process_dropbox_account env_pubfail st0 "acct3").1.log ∧
    (fsRead (process_dropbox_account env_pubfail st0 "acct3").1.fs (artifact_path "acct3") =
        fsRead st0.fs (artifact_path "acct3") ∨
     fsRead (process_dropbox_account env_pubfail st0 "acct3").1.fs (artifact_path "acct3") =
        some "") :=
  run_failure_containment env_pubfail st0 "acct3" (.osError "No space left on device") rfl

/-- Counterexample to C3 as stated: injecting a failure into the
publish-step write makes the run fail after `open(path, "w")` already
truncated the file, so the prior artifact `OLD` is destroyed (left as the
empty document) by the failed run; and a fetch-step failure terminates the
run with outcome no-content, not failed. -/
theorem publish_failure_counterexample :
    (process_dropbox_account env_pubfail st_prior "acct1").2 =
      .failed (.osError "No space left on device") ∧
    fsRead st_prior.fs (artifact_path "acct1") = some "OLD" ∧
    fsRead (process_dropbox_account env_pubfail st_prior "acct1").1.fs (artifact_path "acct1") =
      some "" ∧
    (process_dropbox_account env_listfail st_prior "acct1").2 = .noContent :=
  ⟨rfl, rfl, rfl, rfl⟩

/-- Claim C7 (amended): per-account runs share mutable state beyond the
Artifact Store — every successful run writes the fixed scratch file
`templates/mindmap.html`, which is not the artifact path of any account. -/
theorem shared_scratch_write (env : Env) (st : RunState) (a p : String)
    (h : (process_dropbox_account env st a).2 = .success p) :
    mindmap_scratch_path ∈ (process_dropbox_account env st a).1.writes ∧
    mindmap_scratch_path ≠ artifact_path a := by
  have hp : process_dropbox_account env st a =
      ((process_dropbox_account env st a).1, RunOutcome.success p) := by
    rw [← h]
  exact ⟨process_success_spec env st a _ p hp, scratch_ne_artifact a⟩

/-- Witness for C7 at a concrete input: the successful run for `acct5`
wrote the shared scratch path. -/
theorem shared_scratch_write_witness :
    mindmap_scratch_path ∈ (process_dropbox_account env_ok st0 "acct5").1.writes ∧
    mindmap_scratch_path ≠ artifact_path "acct5" :=
  shared_scratch_write env_ok st0 "acct5" (artifact_path "acct5") rfl

/-- Counterexample to C7 as stated: two successful runs for the distinct
accounts `alpha` and `beta` both open the same fixed file
`templates/mindmap.html` for writing (it appears twice in the write
trace), and that file is not either account's Artifact Store entry — the
tasks share mutable state other than the Artifact Store. -/
theorem shared_state_counterexample :
    (process_dropbox_account env_ok st0 "alpha").2 = .success (artifact_path "alpha") ∧
    (process_dropbox_account env_ok (process_dropbox_account env_ok st0 "alpha").1 "beta").2 =
      .success (artifact_path "beta") ∧
    ((process_dropbox_account env_ok (process_dropbox_account env_ok st0 "alpha").1 "beta").1.writes.count
        mindmap_scratch_path) = 2 ∧
    mindmap_scratch_path ≠ artifact_path "alpha" ∧
    mindmap_scratch_path ≠ artifact_path "beta" :=
  ⟨rfl, rfl, rfl, by decide, by decide⟩

/-- Claim C8: a get for account `a` after a successful put of document `d`
for `a` returns exactly `d`; a get for an account for which no put has ever
succeeded (over any history of puts for other accounts, starting from an
empty store) returns the not-found (404) response. -/
theorem artifact_store_get_put (fs : FS) (a d : String) (puts : List (String × String))
    (h : a ∉ puts.map Prod.fst) :
    view_mindmap (put_artifact fs a d) a = .file d ∧
    view_mindmap (puts.foldl (fun s p => put_artifact s p.1 p.2) []) a =
      .notFound ("No mind map found for account " ++ a) := by
  constructor
  · unfold view_mindmap put_artifact
    rw [fsRead_write_self]
  · unfold view_mindmap
    rw [fsRead_foldl_put_none a puts [] h rfl]

/-- Witness for C8 at concrete inputs: after putting `DOC` for `wacct` the
get returns `DOC`; a get for `wacct` against a store that only ever saw a
put for `other` returns the 404 message. -/
theorem artifact_store_get_put_witness :
    view_mindmap (put_artifact [] "wacct" "DOC") "wacct" = .file "DOC" ∧
    view_mindmap ([("other", "D2")].foldl (fun s p => put_artifact s p.1 p.2) []) "wacct" =
      .notFound ("No mind map found for account " ++ "wacct") :=
  artifact_store_get_put [] "wacct" "DOC" [("other", "D2")] (by decide)

/-- Claim C9 (amended): account identifiers are never validated, but for
every identifier containing no `/` character the artifact address
`static/mindmap_{id}.html` lexically resolves to exactly the file
`mindmap_{id}.html` inside the `static` directory. -/
theorem account_path_traversal_bounded (a : String) (h : '/' ∉ a.data) :
    resolvePath (artifact_path a) = ["static", "mindmap_" ++ a ++ ".html"] :=
  resolve_artifact_no_slash a h

/-- Witness for C9 at a concrete input: the slash-free identifier
`dbid001` resolves inside `static`. -/
theorem account_path_traversal_bounded_witness :
    ('/' ∉ "dbid001".data) ∧
    resolvePath (artifact_path "dbid001") = ["static", "mindmap_dbid001.html"] := by
  refine ⟨by decide, ?_⟩
  rw [account_path_traversal_bounded "dbid001" (by decide)]
  rfl

/-- Counterexample to C9 as stated: a correctly signed notification whose
account list contains the identifier `/../../x` is accepted by the endpoint
(it spawns a pipeline run for that identifier, with no validation
anywhere), and the artifact address formed from that identifier resolves to
`x.html` at the working-directory root — outside the designated `static`
artifact location. -/
theorem traversal_counterexample :
    dropbox_webhook (strBytes "shh")
        ⟨some (hmacSha256Hex (strBytes "shh")
            (strBytes "\x7b\"list_folder\":\x7b\"accounts\":[\"/../../x\"]\x7d\x7d")),
          strBytes "\x7b\"list_folder\":\x7b\"accounts\":[\"/../../x\"]\x7d\x7d"⟩ =
      .ok [PyVal.pyStr "/../../x"] ∧
    resolvePath (artifact_path "/../../x") = ["x.html"] ∧
    resolvePath (artifact_path "/../../x") ≠ ["static", "mindmap_" ++ "/../../x" ++ ".html"] :=
  ⟨rfl, rfl, by decide⟩

/-- Claim C10: a verification-handshake GET without a challenge parameter
still succeeds: status 200, empty body, and the same `text/plain` and
`nosniff` headers as any handshake with a challenge. -/
theorem verify_dropbox_no_challenge :
    verify_dropbox none =
      { status := 200, body := "", content_type := "text/plain",
        x_content_type_options := "nosniff" } ∧
    ∀ c : String,
      (verify_dropbox (some c)).content_type = (verify_dropbox none).content_type ∧
      (verify_dropbox (some c)).x_content_type_options =
        (verify_dropbox none).x_content_type_options :=
  ⟨rfl, fun _ => ⟨rfl, rfl⟩⟩
